import Mathlib

/-!
Shallow embedding of the Theology repository.

Embedded modules:
* `src/categorical_theology.py` — the `Pushforward` and `Pullback`
  transformation-pair wrappers (`apply`, `compose`).
* `src/topological_defect.py` — `DefectDimension`, `SymmetryBreaking`,
  `TopologicalDefect`, `DefectClassification` and
  `DefectTheology.calculate_homotopy_group`.
* `src/archangel_michael.py` / `src/archangel_michael_history.py` — the
  content-registry query functions returning literal collections.

Python exceptions are modelled with `Except`-valued wrapped functions in a
second pair of definitions (`PushforwardE`, `PullbackE`); ordinary function
application under exception propagation becomes `Except.bind`.
-/

namespace Theology

/-! ## Embedding of src/categorical_theology.py -/

/-- Embeds class `Pushforward(Generic[T, U])`: it holds the single field
`self.transformation` set by `__init__`. -/
structure Pushforward (T U : Type) where
  transformation : T → U

/-- Embeds `Pushforward.apply`: `return self.transformation(source)`. -/
def Pushforward.apply (p : Pushforward T U) (source : T) : U :=
  p.transformation source

/-- Embeds `Pushforward.compose`:
`return Pushforward(lambda x: other.apply(self.apply(x)))`. -/
def Pushforward.compose (p : Pushforward T U) (other : Pushforward U V) :
    Pushforward T V :=
  ⟨fun x => other.apply (p.apply x)⟩

/-- Embeds class `Pullback(Generic[T, U])`: its `__init__` stores a
transformation running `U → T` (the contravariant direction). -/
structure Pullback (T U : Type) where
  transformation : U → T

/-- Embeds `Pullback.apply`: `return self.transformation(target)`. -/
def Pullback.apply (p : Pullback T U) (target : U) : T :=
  p.transformation target

/-- Embeds `Pullback.compose`:
`return Pullback(lambda x: self.apply(other.apply(x)))`. -/
def Pullback.compose (p : Pullback T U) (other : Pullback U V) :
    Pullback T V :=
  ⟨fun x => p.apply (other.apply x)⟩

/-- Embeds `Pushforward.compose` as a method call with the object state
threaded through: the Python body is a single `return Pushforward(...)`
constructing a fresh object and containing no assignment, so the call
returns the result together with the two operand objects exactly as the
method leaves them. -/
def Pushforward.composeCall (p : Pushforward T U) (other : Pushforward U V) :
    Pushforward T V × Pushforward T U × Pushforward U V :=
  (⟨fun x => other.apply (p.apply x)⟩, p, other)

/-- Embeds `Pullback.compose` as a method call with the object state
threaded through, as for `Pushforward.composeCall`: the body is a single
`return Pullback(...)` with no assignment. -/
def Pullback.composeCall (p : Pullback T U) (other : Pullback U V) :
    Pullback T V × Pullback T U × Pullback U V :=
  (⟨fun x => p.apply (other.apply x)⟩, p, other)

/-! ### Exception-aware embedding

A Python callable that may raise is embedded as a function into
`Except E`.  The expression `other.apply(self.apply(x))` evaluates
`self.apply(x)` first; if that raises, the exception propagates before
`other.apply` runs — which is exactly `Except.bind`. -/

/-- Exception-aware embedding of `Pushforward`: the wrapped transformation
may raise (return `Except.error`). -/
structure PushforwardE (E T U : Type) where
  transformation : T → Except E U

/-- Exception-aware embedding of `Pushforward.apply`: it calls the wrapped
transformation and returns or raises exactly what it did. -/
def PushforwardE.apply (p : PushforwardE E T U) (source : T) : Except E U :=
  p.transformation source

/-- Exception-aware embedding of `Pushforward.compose`:
`other.apply(self.apply(x))` under exception propagation. -/
def PushforwardE.compose (p : PushforwardE E T U) (other : PushforwardE E U V) :
    PushforwardE E T V :=
  ⟨fun x => (p.apply x).bind other.apply⟩

/-- Exception-aware embedding of `Pullback`. -/
structure PullbackE (E T U : Type) where
  transformation : U → Except E T

/-- Exception-aware embedding of `Pullback.apply`. -/
def PullbackE.apply (p : PullbackE E T U) (target : U) : Except E T :=
  p.transformation target

/-- Exception-aware embedding of `Pullback.compose`:
`self.apply(other.apply(x))` under exception propagation. -/
def PullbackE.compose (p : PullbackE E T U) (other : PullbackE E U V) :
    PullbackE E T V :=
  ⟨fun x => (other.apply x).bind p.apply⟩

/-! ## Embedding of src/topological_defect.py -/

/-- Embeds enum `DefectDimension` (`POINT = 0`, `LINE = 1`, `SURFACE = 2`,
`VOLUME = 3`). -/
inductive DefectDimension where
  | POINT
  | LINE
  | SURFACE
  | VOLUME
deriving DecidableEq, Repr

/-- The numeric `value` of each `DefectDimension` member, as assigned in
the Python enum. -/
def DefectDimension.value : DefectDimension → Nat
  | .POINT => 0
  | .LINE => 1
  | .SURFACE => 2
  | .VOLUME => 3

/-- Embeds enum `SymmetryBreaking` (its members; the string values are
given by `SymmetryBreaking.value`). -/
inductive SymmetryBreaking where
  | DIVINE_UNITY
  | TEMPORAL_CONTINUITY
  | DENOMINATIONAL
  | DOCTRINAL
deriving DecidableEq, Repr

/-- The string `value` of each `SymmetryBreaking` member. -/
def SymmetryBreaking.value : SymmetryBreaking → String
  | .DIVINE_UNITY => "Breaking of absolute divine unity"
  | .TEMPORAL_CONTINUITY => "Breaking of eternal present"
  | .DENOMINATIONAL => "Breaking of universal church"
  | .DOCTRINAL => "Breaking of unified interpretation"

/-- Embeds dataclass `TopologicalDefect`. -/
structure TopologicalDefect where
  name : String
  dimension : DefectDimension
  symmetry_broken : SymmetryBreaking
  theological_concept : String
  properties : List String
  stability : String
deriving DecidableEq, Repr

namespace DefectClassification

/-- Embeds `DefectClassification.create_monopole`. -/
def create_monopole : TopologicalDefect :=
  { name := "Monopole"
    dimension := DefectDimension.POINT
    symmetry_broken := SymmetryBreaking.DIVINE_UNITY
    theological_concept := "The Incarnation"
    properties := [
      "Point-like manifestation of the infinite",
      "Breaks transcendence-immanence symmetry",
      "Stable singularity in spacetime",
      "Divine concentrated at a point",
      "Cannot be removed by continuous transformation"]
    stability := "Topologically protected - stable configuration" }

/-- Embeds `DefectClassification.create_vortex`. -/
def create_vortex : TopologicalDefect :=
  { name := "Vortex/String"
    dimension := DefectDimension.LINE
    symmetry_broken := SymmetryBreaking.TEMPORAL_CONTINUITY
    theological_concept := "Prophetic Lineage"
    properties := [
      "One-dimensional line through time",
      "Spiritual circulation around axis",
      "Connects past and future",
      "Winding number represents tradition depth",
      "Cannot be unwound continuously"]
    stability := "Protected by winding number (homotopy group)" }

/-- Embeds `DefectClassification.create_domain_wall`. -/
def create_domain_wall : TopologicalDefect :=
  { name := "Domain Wall"
    dimension := DefectDimension.SURFACE
    symmetry_broken := SymmetryBreaking.DENOMINATIONAL
    theological_concept := "Denominational Boundaries"
    properties := [
      "Surface separating different traditions",
      "Marks theological phase transition",
      "Energy barrier to cross denominations",
      "Can merge or annihilate with antiwall",
      "Represents historical schisms"]
    stability := "Semi-stable - can evolve or annihilate" }

/-- Embeds `DefectClassification.create_texture`. -/
def create_texture : TopologicalDefect :=
  { name := "Texture"
    dimension := DefectDimension.VOLUME
    symmetry_broken := SymmetryBreaking.DOCTRINAL
    theological_concept := "Doctrinal Interpretation Space"
    properties := [
      "Volume-filling configuration",
      "Gradual variation across space",
      "Represents hermeneutical complexity",
      "No sharp boundaries",
      "Maps out interpretation landscape"]
    stability := "Metastable - can decay to vacuum" }

/-- Embeds `DefectClassification.get_all_defects`. -/
def get_all_defects : List TopologicalDefect :=
  [create_monopole, create_vortex, create_domain_wall, create_texture]

end DefectClassification

/-- Embeds `DefectTheology.calculate_homotopy_group`: the if/elif chain on
`defect.dimension` with the final `"Unknown"` fallback. -/
def DefectTheology.calculate_homotopy_group (defect : TopologicalDefect) :
    String :=
  if defect.dimension = DefectDimension.POINT then
    "π₂(S²) = ℤ (monopole charge quantized)"
  else if defect.dimension = DefectDimension.LINE then
    "π₁(S¹) = ℤ (winding number quantized)"
  else if defect.dimension = DefectDimension.SURFACE then
    "π₀(discrete) (distinguishes phases)"
  else if defect.dimension = DefectDimension.VOLUME then
    "π₃(S³) = ℤ (texture can be classified)"
  else "Unknown"

/-! ## Embedding of src/archangel_michael.py and
src/archangel_michael_history.py (content registry) -/

/-- Embeds enum `ArtisticDepiction`. -/
inductive ArtisticDepiction where
  | WARRIOR_WITH_SWORD
  | DRAGON_VICTOR
  | SCALES_OF_JUSTICE
  | ARMORED_GUARDIAN
  | YOUTHFUL_HERO
deriving DecidableEq, Repr

/-- Embeds dataclass `TheologicalAttribute`. -/
structure TheologicalAttribute where
  name : String
  tradition : String
  description : String
  symbolic_meaning : String
  artistic_representation : ArtisticDepiction
deriving DecidableEq, Repr

namespace ArchangelMichael

/-- Embeds `ArchangelMichael.get_biblical_references`: the literal list of
`(reference, description)` tuples. -/
def get_biblical_references : List (String × String) :=
  [("Daniel 10:13",
    "Michael as \x27one of the chief princes\x27 helping Daniel"),
   ("Daniel 10:21",
    "Michael described as \x27your prince\x27 (Israel\x27s protector)"),
   ("Daniel 12:1",
    "Michael as the great prince who protects Daniel\x27s people"),
   ("Jude 1:9",
    "Michael the archangel disputes with the devil over Moses\x27 body"),
   ("Revelation 12:7-9",
    "Michael and his angels fight the dragon (Satan)")]

/-- Embeds `ArchangelMichael.get_theological_roles`: the literal list of
`TheologicalAttribute` records. -/
def get_theological_roles : List TheologicalAttribute :=
  [{ name := "Divine Warrior"
     tradition := "Christian/Jewish"
     description := "Commander of the heavenly armies against evil"
     symbolic_meaning :=
       "Divine justice and protection against spiritual warfare"
     artistic_representation := ArtisticDepiction.WARRIOR_WITH_SWORD },
   { name := "Dragon Slayer"
     tradition := "Christian (Revelation)"
     description := "Defeats the dragon (Satan) and casts him from heaven"
     symbolic_meaning := "Victory of good over evil, light over darkness"
     artistic_representation := ArtisticDepiction.DRAGON_VICTOR },
   { name := "Psychopomp"
     tradition := "Catholic/Orthodox"
     description := "Guides and protects souls on their journey to heaven"
     symbolic_meaning := "Mediation between earthly and heavenly realms"
     artistic_representation := ArtisticDepiction.SCALES_OF_JUSTICE },
   { name := "Protector of Israel"
     tradition := "Jewish"
     description := "Special guardian and advocate for the people of Israel"
     symbolic_meaning := "Divine providence and national protection"
     artistic_representation := ArtisticDepiction.ARMORED_GUARDIAN }]

end ArchangelMichael

namespace ArchangelMichaelHistory

/-- Embeds `ArchangelMichaelHistory.get_ancient_references`: the literal
list of ancient textual references. -/
def get_ancient_references : List String :=
  ["Book of Daniel 10:13 - \x27Michael, one of the chief princes\x27",
   "Book of Daniel 12:1 - \x27Michael, the great prince who protects your people\x27",
   "Book of Enoch 20:5 - \x27Michael, one of the holy angels\x27",
   "Epistle of Jude 1:9 - \x27Michael the archangel...disputed with the devil\x27",
   "Book of Revelation 12:7 - \x27Michael and his angels fought against the dragon\x27",
   "Quran 2:98 - \x27Michael (Mīkāl) is among the angels\x27",
   "1 Thessalonians 4:16 - \x27The Lord himself shall descend...with the voice of the archangel\x27"]

end ArchangelMichaelHistory

end Theology

namespace Theology

/-! ## Theorems for claims C1, C2, C5, C6, C8 -/

/-- Claim C1: for every `f`, `g` and input `x`,
`Pushforward(f).compose(Pushforward(g)).apply(x) = g(f(x))`
(self-then-other) and
`Pullback(f).compose(Pullback(g)).apply(x) = f(g(x))`
(other-then-self). -/
theorem compose_apply_orders {T U V A B C : Type}
    (f : T → U) (g : U → V) (x : T)
    (f' : B → A) (g' : C → B) (y : C) :
    ((Pushforward.mk f).compose (Pushforward.mk g)).apply x = g (f x) ∧
    ((Pullback.mk f').compose (Pullback.mk g')).apply y = f' (g' y) := by
  constructor <;> rfl

/-- Claim C2: a pair constructed with `f` satisfies `apply x = f x`, for
both variants. -/
theorem apply_eq_wrapped {T U A B : Type} (f : T → U) (g : B → A)
    (x : T) (y : B) :
    (Pushforward.mk f).apply x = f x ∧ (Pullback.mk g).apply y = g y := by
  constructor <;> rfl

/-- Embeds the Python string method `s.upper()`: uppercase every character
(the inputs used by the repository are ASCII, where `Char.toUpper` agrees
with Python). -/
def pyUpper (s : String) : String :=
  ⟨s.data.map Char.toUpper⟩

/-- Claim C5: the forward pair wrapping `s + "_done"` composed with the
forward pair wrapping `s.upper()` applied to `"step"` yields
`"STEP_DONE"`. -/
theorem pushforward_example_step_done :
    ((Pushforward.mk (fun s => s ++ "_done")).compose
      (Pushforward.mk pyUpper)).apply "step" = "STEP_DONE" := by
  decide

/-- Claim C6: the backward pair wrapping `"<" + s` composed with the
backward pair wrapping `s + ">"` applied to `"x"` yields `"<x>"`. -/
theorem pullback_example_brackets :
    ((Pullback.mk (fun s => "<" ++ s)).compose
      (Pullback.mk (fun s => s ++ ">"))).apply "x" = "<x>" := by
  decide

/-- Claim C3: when the wrapped transformation raises on `x`, `apply` on
the simple pair raises the identical error, and `apply` on a composed pair
whose sequential application reaches the raising transformation raises the
identical error — whether the failure occurs in the first or in the second
stage of the composition, for both variants.  No substitution, wrapping or
swallowing happens. -/
theorem apply_propagates_errors {E T U V A B C : Type}
    (p : PushforwardE E T U) (q : PushforwardE E U V)
    (r : PullbackE E A B) (s : PullbackE E B C)
    (x : T) (y : C) (e : E) :
    (p.transformation x = Except.error e →
      p.apply x = Except.error e ∧ (p.compose q).apply x = Except.error e) ∧
    (∀ v, p.transformation x = Except.ok v →
      q.transformation v = Except.error e →
      (p.compose q).apply x = Except.error e) ∧
    (s.transformation y = Except.error e →
      s.apply y = Except.error e ∧ (r.compose s).apply y = Except.error e) ∧
    (∀ w, s.transformation y = Except.ok w →
      r.transformation w = Except.error e →
      (r.compose s).apply y = Except.error e) := by
  refine ⟨fun h => ⟨h, ?_⟩, fun v hv hq => ?_, fun h => ⟨h, ?_⟩,
    fun w hw hr => ?_⟩
  · show (p.apply x).bind q.apply = Except.error e
    simp only [PushforwardE.apply]
    rw [h]
    rfl
  · show (p.apply x).bind q.apply = Except.error e
    simp only [PushforwardE.apply]
    rw [hv]
    exact hq
  · show (s.apply y).bind r.apply = Except.error e
    simp only [PullbackE.apply]
    rw [h]
    rfl
  · show (s.apply y).bind r.apply = Except.error e
    simp only [PullbackE.apply]
    rw [hw]
    exact hr

/-- Witness for claim C3: concrete pairs over `Nat` with error type
`String`, failing in the first stage of a simple pair and in the second
stage of a composed pair. -/
theorem apply_propagates_errors_witness :
    (PushforwardE.mk
        (fun _ : Nat => (Except.error "boom" : Except String Nat))).apply 0 =
      Except.error "boom" ∧
    ((PushforwardE.mk
        (fun n : Nat => (Except.ok (n + 1) : Except String Nat))).compose
      (PushforwardE.mk
        (fun _ : Nat => (Except.error "late" : Except String Nat)))).apply 0 =
      Except.error "late" := by
  have h := @apply_propagates_errors String Nat Nat Nat Nat Nat Nat
    (PushforwardE.mk (fun _ => Except.error "boom"))
    (PushforwardE.mk (fun _ => Except.ok 0))
    (PullbackE.mk (fun _ => Except.ok 0))
    (PullbackE.mk (fun _ => Except.ok 0))
    0 0 "boom"
  have h2 := @apply_propagates_errors String Nat Nat Nat Nat Nat Nat
    (PushforwardE.mk (fun n => Except.ok (n + 1)))
    (PushforwardE.mk (fun _ => Except.error "late"))
    (PullbackE.mk (fun _ => Except.ok 0))
    (PullbackE.mk (fun _ => Except.ok 0))
    0 0 "late"
  exact ⟨(h.1 rfl).1, h2.2.1 1 rfl rfl⟩

/-- Claim C7: `compose` returns a freshly constructed pair (the literal
constructor application of the composed function) and leaves the
`transformation` field of both operand objects unchanged, for both
variants; the state-threaded method call returns both operands exactly as
they were. -/
theorem compose_fresh_and_frame {T U V A B C : Type}
    (p : Pushforward T U) (q : Pushforward U V)
    (r : Pullback A B) (s : Pullback B C) :
    (p.composeCall q).1 =
        Pushforward.mk (fun x => q.transformation (p.transformation x)) ∧
    ((p.composeCall q).2.1 = p ∧ (p.composeCall q).2.2 = q) ∧
    (r.composeCall s).1 =
        Pullback.mk (fun x => r.transformation (s.transformation x)) ∧
    ((r.composeCall s).2.1 = r ∧ (r.composeCall s).2.2 = s) := by
  exact ⟨rfl, ⟨rfl, rfl⟩, rfl, ⟨rfl, rfl⟩⟩

/-- Claim C8: forward and backward composition conventions are dual:
`Pushforward(f).compose(Pushforward(g)).apply x =
 Pullback(g).compose(Pullback(f)).apply x`, both equal to `g (f x)`. -/
theorem pushforward_pullback_duality {T U V : Type}
    (f : T → U) (g : U → V) (x : T) :
    ((Pushforward.mk f).compose (Pushforward.mk g)).apply x =
      ((Pullback.mk g).compose (Pullback.mk f)).apply x ∧
    ((Pushforward.mk f).compose (Pushforward.mk g)).apply x = g (f x) := by
  constructor <;> rfl

/-! ## Theorems for claims C4, C9, C10 -/

/-- Claim C4: each content-registry query function is deterministic (two
calls give structurally equal results — in the embedding the function is a
constant built from literals) and returns a non-empty collection. -/
theorem content_registry_deterministic_nonempty :
    (ArchangelMichael.get_biblical_references =
        ArchangelMichael.get_biblical_references ∧
      ArchangelMichael.get_biblical_references.length ≠ 0) ∧
    (ArchangelMichael.get_theological_roles =
        ArchangelMichael.get_theological_roles ∧
      ArchangelMichael.get_theological_roles.length ≠ 0) ∧
    (DefectClassification.get_all_defects =
        DefectClassification.get_all_defects ∧
      DefectClassification.get_all_defects.length ≠ 0) ∧
    (ArchangelMichaelHistory.get_ancient_references =
        ArchangelMichaelHistory.get_ancient_references ∧
      ArchangelMichaelHistory.get_ancient_references.length ≠ 0) := by
  refine ⟨⟨rfl, ?_⟩, ⟨rfl, ?_⟩, ⟨rfl, ?_⟩, ⟨rfl, ?_⟩⟩ <;> decide

/-- Claim C9: `get_all_defects` returns exactly four records, in the order
monopole, vortex, domain wall, texture, with dimensions `POINT`, `LINE`,
`SURFACE`, `VOLUME`, so every `DefectDimension` value occurs exactly
once. -/
theorem get_all_defects_four_in_order :
    DefectClassification.get_all_defects.length = 4 ∧
    DefectClassification.get_all_defects.map TopologicalDefect.name =
      ["Monopole", "Vortex/String", "Domain Wall", "Texture"] ∧
    DefectClassification.get_all_defects.map TopologicalDefect.dimension =
      [DefectDimension.POINT, DefectDimension.LINE,
        DefectDimension.SURFACE, DefectDimension.VOLUME] ∧
    ∀ d : DefectDimension,
      (DefectClassification.get_all_defects.map
        TopologicalDefect.dimension).count d = 1 := by
  refine ⟨rfl, rfl, rfl, ?_⟩
  intro d
  cases d <;> decide

/-- Claim C10: on every defect whose `dimension` is one of the four
`DefectDimension` values — in the embedding, every `TopologicalDefect` —
`calculate_homotopy_group` returns one of the four specific
homotopy-group strings and never the `"Unknown"` fallback. -/
theorem calculate_homotopy_group_never_unknown
    (defect : TopologicalDefect) :
    (DefectTheology.calculate_homotopy_group defect =
        "π₂(S²) = ℤ (monopole charge quantized)" ∨
      DefectTheology.calculate_homotopy_group defect =
        "π₁(S¹) = ℤ (winding number quantized)" ∨
      DefectTheology.calculate_homotopy_group defect =
        "π₀(discrete) (distinguishes phases)" ∨
      DefectTheology.calculate_homotopy_group defect =
        "π₃(S³) = ℤ (texture can be classified)") ∧
    DefectTheology.calculate_homotopy_group defect ≠ "Unknown" := by
  obtain ⟨n, dim, sb, tc, props, st⟩ := defect
  cases dim <;>
    simp [DefectTheology.calculate_homotopy_group]

end Theology
